import Mathlib

/-
Shallow embedding of the ultimateLogger crate (src/log_level.rs, src/log_file.rs,
src/lib.rs).  External effects (the OS file system, the wall clock, the terminal)
are made explicit: file open/write outcomes are passed in as oracle values, the
clock reading is a parameter, and emissions to the two destinations are returned
as a list of events.  Rust panics are modelled as `Except.error`.
-/

namespace UltimateLogger

/-- The `LogLevel` enum of src/log_level.rs, in Rust declaration order
(Info, Debug, Trace, Warning, Error, Critical). -/
inductive LogLevel
  | Info
  | Debug
  | Trace
  | Warning
  | Error
  | Critical
deriving DecidableEq, Repr

/-- The Rust discriminant of a `LogLevel` value, as used by `level as u8`
in `Logger::log`.  Rust assigns discriminants in declaration order. -/
def LogLevel.asU8 : LogLevel → Nat
  | .Info => 0
  | .Debug => 1
  | .Trace => 2
  | .Warning => 3
  | .Error => 4
  | .Critical => 5

/-- `LogLevel::to_string` of src/log_level.rs. -/
def LogLevel.to_string : LogLevel → String
  | .Info => "info"
  | .Debug => "debug"
  | .Trace => "trace"
  | .Warning => "warning"
  | .Error => "error"
  | .Critical => "critical"

/-- The styles produced by the `colored` crate calls in
`LogLevel::color_string` (`.red().bold()` is the single style `redBold`). -/
inductive Style
  | underline
  | dimmed
  | clear
  | yellow
  | red
  | redBold
deriving DecidableEq, Repr

/-- A `ColoredString` of the `colored` crate: a text with an attached style. -/
structure ColoredString where
  text : String
  style : Style
deriving DecidableEq, Repr

/-- `LogLevel::color_string` of src/log_level.rs. -/
def LogLevel.color_string : LogLevel → String → ColoredString
  | .Trace, s => ⟨s, .underline⟩
  | .Debug, s => ⟨s, .dimmed⟩
  | .Info, s => ⟨s, .clear⟩
  | .Warning, s => ⟨s, .yellow⟩
  | .Error, s => ⟨s, .red⟩
  | .Critical, s => ⟨s, .redBold⟩

/-- Outcome of the OS-level `write_all` call inside `LogFile::write`
(an oracle: the OS either accepts the bytes or reports an I/O error). -/
inductive WriteOutcome
  | ok
  | ioError (e : String)
deriving DecidableEq, Repr

/-- Outcome of the OS-level `OpenOptions::open` call inside `LogFile::new`
(an oracle: on success the file is open in append mode and `existing` is the
content already in it; otherwise the OS reports an I/O error). -/
inductive OpenOutcome
  | opened (existing : String)
  | ioError (e : String)
deriving DecidableEq, Repr

/-- The `LogFile` struct of src/log_file.rs.  The open append-mode handle is
modelled by the path it is bound to together with the current file content. -/
structure LogFile where
  path : String
  content : String
deriving DecidableEq, Repr

/-- `LogFile::new` of src/log_file.rs: opens the file in write+append+create
mode; `unwrap_or_else(panic!)` on failure is modelled as `Except.error` with
the panic message. -/
def LogFile.new (path : String) (o : OpenOutcome) : Except String LogFile :=
  match o with
  | .opened existing => .ok ⟨path, existing⟩
  | .ioError e =>
      .error ("Error opening log file: " ++ e ++ "\nPath to log file was: " ++ path)

/-- `LogFile::write` of src/log_file.rs: `write_all` appends the bytes;
`unwrap_or_else(panic!)` on failure is modelled as `Except.error` with the
panic message. -/
def LogFile.write (f : LogFile) (to_write : String) (o : WriteOutcome) :
    Except String LogFile :=
  match o with
  | .ok => .ok ⟨f.path, f.content ++ to_write⟩
  | .ioError e =>
      .error ("Error writing to log file: " ++ e ++ "\nText to be written was:\n"
        ++ to_write)

/-- The `Logger` struct of src/lib.rs. -/
structure Logger where
  name : String
  min_level : LogLevel
  log_file : Option LogFile
  write_to_console : Bool
  write_to_file : Bool
deriving DecidableEq, Repr

/-- `Logger::new` of src/lib.rs. -/
def Logger.new (name : String) (min_level : LogLevel) : Logger :=
  { name := name
    min_level := min_level
    log_file := none
    write_to_console := true
    write_to_file := false }

/-- `Logger::new_to_file` of src/lib.rs; the `LogFile::new` panic propagates
as `Except.error`. -/
def Logger.new_to_file (name : String) (min_level : LogLevel) (filepath : String)
    (write_to_console_too : Bool) (o : OpenOutcome) : Except String Logger :=
  (LogFile.new filepath o).map fun log_file =>
    { name := name
      min_level := min_level
      log_file := some log_file
      write_to_console := write_to_console_too
      write_to_file := true }

/-- `Logger::new_default` of src/lib.rs. -/
def Logger.new_default (name : String) : Logger :=
  Logger.new name LogLevel.Info

/-- One digit character, `0`..`9`. -/
def digitChar (n : Nat) : Char := Char.ofNat (48 + n)

/-- Two-digit zero-padded decimal rendering (chrono `%m`, `%d`, `%H`, `%M`,
`%S` for in-range values). -/
def pad2 (n : Nat) : List Char :=
  [digitChar (n / 10 % 10), digitChar (n % 10)]

/-- Three-digit zero-padded decimal rendering (chrono `%.3f` fraction for
in-range values). -/
def pad3 (n : Nat) : List Char :=
  [digitChar (n / 100 % 10), digitChar (n / 10 % 10), digitChar (n % 10)]

/-- Four-digit zero-padded decimal rendering (chrono `%Y` for in-range
values). -/
def pad4 (n : Nat) : List Char :=
  [digitChar (n / 1000 % 10), digitChar (n / 100 % 10), digitChar (n / 10 % 10),
    digitChar (n % 10)]

/-- A local wall-clock reading, split into calendar fields, as sampled by
`chrono::offset::Local::now()`. -/
structure DateTime where
  year : Nat
  month : Nat
  day : Nat
  hour : Nat
  minute : Nat
  second : Nat
  millis : Nat
deriving DecidableEq, Repr

/-- Modelled from the spec: `Logger::get_date_time` of src/lib.rs formats the
clock reading with the chrono format string `"%F %T%.3f"`; the chrono crate's
rendering of those directives (`%F` = zero-padded `YYYY-MM-DD`, `%T` =
zero-padded `HH:MM:SS`, `%.3f` = `.mmm`) is not part of src and is modelled
here per the spec's stated line format `YYYY-MM-DD HH:MM:SS.mmm`. -/
def Logger.get_date_time (t : DateTime) : String :=
  ⟨pad4 t.year ++ '-' :: (pad2 t.month ++ '-' :: (pad2 t.day ++ ' ' ::
    (pad2 t.hour ++ ':' :: (pad2 t.minute ++ ':' :: (pad2 t.second ++ '.' ::
    pad3 t.millis)))))⟩

/-- All characters of the list are decimal digits. -/
def allDigits (l : List Char) : Prop := ∀ c ∈ l, c.isDigit = true

/-- The spec's timestamp format `YYYY-MM-DD HH:MM:SS.mmm`: four digits, dash,
two digits, dash, two digits, space, two digits, colon, two digits, colon,
two digits, dot, three digits. -/
def timestampShape (s : String) : Prop :=
  ∃ y mo d h mi sec ms : List Char,
    s.data = y ++ '-' :: (mo ++ '-' :: (d ++ ' ' :: (h ++ ':' :: (mi ++ ':' ::
      (sec ++ '.' :: ms))))) ∧
    y.length = 4 ∧ mo.length = 2 ∧ d.length = 2 ∧ h.length = 2 ∧
    mi.length = 2 ∧ sec.length = 2 ∧ ms.length = 3 ∧
    allDigits y ∧ allDigits mo ∧ allDigits d ∧ allDigits h ∧
    allDigits mi ∧ allDigits sec ∧ allDigits ms

/-- `Logger::get_colored_level_name` of src/lib.rs. -/
def Logger.get_colored_level_name (level : LogLevel) : ColoredString :=
  level.color_string level.to_string

/-- `Logger::get_colored_message` of src/lib.rs. -/
def Logger.get_colored_message (level : LogLevel) (message : String) : ColoredString :=
  level.color_string message

/-- The string built by the `format!` in `Logger::log_to_file`:
`"[{}] [{}] [{}] {}\n"` with the timestamp, name, level name and message. -/
def Logger.file_line (ts name : String) (level : LogLevel) (message : String) : String :=
  "[" ++ ts ++ "] [" ++ name ++ "] [" ++ level.to_string ++ "] " ++ message ++ "\n"

/-- `Logger::log_to_file` of src/lib.rs: writes the formatted line to the
sink; the timestamp sampled by `get_date_time` is the `ts` argument. -/
def Logger.log_to_file (log_file : LogFile) (ts : String) (level : LogLevel)
    (message : String) (name : String) (o : WriteOutcome) : Except String LogFile :=
  log_file.write (Logger.file_line ts name level message) o

/-- The arguments `Logger::log_to_console` passes to `println!`:
`"[{}] [{}] [{}] {}"` with the timestamp, name, colored level name and
colored message (the console line, before terminal rendering). -/
structure ConsoleLine where
  ts : String
  name : String
  level_name : ColoredString
  message : ColoredString
deriving DecidableEq, Repr

/-- `Logger::log_to_console` of src/lib.rs. -/
def Logger.log_to_console (ts : String) (level : LogLevel) (message : String)
    (name : String) : ConsoleLine :=
  ⟨ts, name, Logger.get_colored_level_name level, Logger.get_colored_message level message⟩

/-- One observable emission of a `log` call: a line appended to the file sink
or a line printed to the console. -/
inductive Emission
  | file (line : String)
  | console (line : ConsoleLine)
deriving DecidableEq, Repr

/-- `Logger::log` of src/lib.rs.  `ts` is the clock reading, `o` the outcome
of the file-sink write (only consulted when the write happens).  Returns the
boolean result, the updated logger state, and the emissions in program order;
a panic inside `LogFile::write` is `Except.error`. -/
def Logger.log (l : Logger) (ts : String) (level : LogLevel) (message : String)
    (o : WriteOutcome) : Except String (Bool × Logger × List Emission) :=
  if level.asU8 ≥ l.min_level.asU8 then
    let fileStep : Except String (Logger × List Emission) :=
      if l.write_to_file then
        match l.log_file with
        | some log_file =>
          match Logger.log_to_file log_file ts level message l.name o with
          | .ok lf =>
              .ok ({ l with log_file := some lf },
                [Emission.file (Logger.file_line ts l.name level message)])
          | .error e => .error e
        | none => .ok (l, [])
      else .ok (l, [])
    match fileStep with
    | .ok (l₁, es₁) =>
        let es₂ := if l.write_to_console then
            [Emission.console (Logger.log_to_console ts level message l.name)]
          else []
        .ok (true, l₁, es₁ ++ es₂)
    | .error e => .error e
  else
    .ok (false, l, [])

/-- `Logger::info` of src/lib.rs. -/
def Logger.info (l : Logger) (ts : String) (message : String) (o : WriteOutcome) :
    Except String (Bool × Logger × List Emission) :=
  l.log ts LogLevel.Info message o

/-- `Logger::debug` of src/lib.rs. -/
def Logger.debug (l : Logger) (ts : String) (message : String) (o : WriteOutcome) :
    Except String (Bool × Logger × List Emission) :=
  l.log ts LogLevel.Debug message o

/-- `Logger::trace` of src/lib.rs. -/
def Logger.trace (l : Logger) (ts : String) (message : String) (o : WriteOutcome) :
    Except String (Bool × Logger × List Emission) :=
  l.log ts LogLevel.Trace message o

/-- `Logger::warning` of src/lib.rs. -/
def Logger.warning (l : Logger) (ts : String) (message : String) (o : WriteOutcome) :
    Except String (Bool × Logger × List Emission) :=
  l.log ts LogLevel.Warning message o

/-- `Logger::error` of src/lib.rs. -/
def Logger.error (l : Logger) (ts : String) (message : String) (o : WriteOutcome) :
    Except String (Bool × Logger × List Emission) :=
  l.log ts LogLevel.Error message o

/-- `Logger::critical` of src/lib.rs. -/
def Logger.critical (l : Logger) (ts : String) (message : String) (o : WriteOutcome) :
    Except String (Bool × Logger × List Emission) :=
  l.log ts LogLevel.Critical message o

/-- The invariant stated by the spec's data model: if file output is enabled,
the sink is present. -/
def Logger.file_invariant (l : Logger) : Prop :=
  l.write_to_file = true → l.log_file.isSome = true

theorem digitChar_isDigit {n : Nat} (h : n < 10) : (digitChar n).isDigit = true := by
  interval_cases n <;> decide

theorem pad2_allDigits (n : Nat) : allDigits (pad2 n) := by
  intro c hc
  simp only [pad2, List.mem_cons, List.not_mem_nil, or_false] at hc
  rcases hc with rfl | rfl <;> exact digitChar_isDigit (Nat.mod_lt _ (by omega))

theorem pad3_allDigits (n : Nat) : allDigits (pad3 n) := by
  intro c hc
  simp only [pad3, List.mem_cons, List.not_mem_nil, or_false] at hc
  rcases hc with rfl | rfl | rfl <;> exact digitChar_isDigit (Nat.mod_lt _ (by omega))

theorem pad4_allDigits (n : Nat) : allDigits (pad4 n) := by
  intro c hc
  simp only [pad4, List.mem_cons, List.not_mem_nil, or_false] at hc
  rcases hc with rfl | rfl | rfl | rfl <;> exact digitChar_isDigit (Nat.mod_lt _ (by omega))

theorem get_date_time_shape (t : DateTime) : timestampShape (Logger.get_date_time t) :=
  ⟨pad4 t.year, pad2 t.month, pad2 t.day, pad2 t.hour, pad2 t.minute, pad2 t.second,
    pad3 t.millis, rfl, rfl, rfl, rfl, rfl, rfl, rfl, rfl,
    pad4_allDigits _, pad2_allDigits _, pad2_allDigits _, pad2_allDigits _,
    pad2_allDigits _, pad2_allDigits _, pad3_allDigits _⟩

theorem Logger.log_characterization (l : Logger) (ts : String) (level : LogLevel)
    (message : String) (o : WriteOutcome) :
    l.log ts level message o =
      if level.asU8 ≥ l.min_level.asU8 then
        match l.write_to_file, l.log_file, o with
        | true, some f, WriteOutcome.ok =>
            Except.ok (true,
              { l with log_file := some (⟨f.path,
                  f.content ++ Logger.file_line ts l.name level message⟩ : LogFile) },
              Emission.file (Logger.file_line ts l.name level message) ::
                (if l.write_to_console then
                    [Emission.console (Logger.log_to_console ts level message l.name)]
                  else []))
        | true, some _, WriteOutcome.ioError e =>
            Except.error ("Error writing to log file: " ++ e
              ++ "\nText to be written was:\n" ++ Logger.file_line ts l.name level message)
        | true, none, _ =>
            Except.ok (true, l,
              if l.write_to_console then
                [Emission.console (Logger.log_to_console ts level message l.name)]
              else [])
        | false, _, _ =>
            Except.ok (true, l,
              if l.write_to_console then
                [Emission.console (Logger.log_to_console ts level message l.name)]
              else [])
      else Except.ok (false, l, []) := by
  obtain ⟨name, min_level, log_file, wc, wf⟩ := l
  cases wf <;> cases log_file <;> cases o <;>
    simp [Logger.log, Logger.log_to_file, LogFile.write]

theorem Logger.log_ok_fst (l : Logger) (ts : String) (level : LogLevel)
    (message : String) (o : WriteOutcome) (b : Bool) (l' : Logger) (es : List Emission)
    (h : l.log ts level message o = .ok (b, l', es)) :
    b = decide (l.min_level.asU8 ≤ level.asU8) := by
  rw [Logger.log_characterization] at h
  split at h
  · rename_i hgate
    split at h <;>
      first
        | exact Except.noConfusion h
        | (simp only [Except.ok.injEq, Prod.mk.injEq] at h
           exact h.1.symm.trans (decide_eq_true hgate).symm)
  · rename_i hgate
    simp only [Except.ok.injEq, Prod.mk.injEq] at h
    exact h.1.symm.trans (decide_eq_false hgate).symm

theorem Logger.log_file_emission_eq (l : Logger) (ts : String) (level : LogLevel)
    (message : String) (o : WriteOutcome) (b : Bool) (l' : Logger) (es : List Emission)
    (h : l.log ts level message o = .ok (b, l', es))
    (line : String) (hmem : Emission.file line ∈ es) :
    line = Logger.file_line ts l.name level message := by
  rw [Logger.log_characterization] at h
  split at h
  · split at h
    · simp only [Except.ok.injEq, Prod.mk.injEq] at h
      obtain ⟨-, -, hes⟩ := h
      subst hes
      simp only [List.mem_cons] at hmem
      rcases hmem with heq | hmem
      · simpa using heq
      · split at hmem <;> simp at hmem
    · exact Except.noConfusion h
    · simp only [Except.ok.injEq, Prod.mk.injEq] at h
      obtain ⟨-, -, hes⟩ := h
      subst hes
      split at hmem <;> simp at hmem
    · simp only [Except.ok.injEq, Prod.mk.injEq] at h
      obtain ⟨-, -, hes⟩ := h
      subst hes
      split at hmem <;> simp at hmem
  · simp only [Except.ok.injEq, Prod.mk.injEq] at h
    obtain ⟨-, -, hes⟩ := h
    subst hes
    simp at hmem

theorem Logger.log_preserves_file_invariant (l : Logger) (ts : String)
    (level : LogLevel) (message : String) (o : WriteOutcome) (b : Bool) (l' : Logger)
    (es : List Emission) (hinv : l.file_invariant)
    (h : l.log ts level message o = .ok (b, l', es)) : l'.file_invariant := by
  rw [Logger.log_characterization] at h
  split at h
  · split at h <;>
      first
        | exact Except.noConfusion h
        | (simp only [Except.ok.injEq, Prod.mk.injEq] at h
           obtain ⟨-, hl, -⟩ := h
           subst hl
           first
             | exact fun _ => rfl
             | exact hinv)
  · simp only [Except.ok.injEq, Prod.mk.injEq] at h
    obtain ⟨-, hl, -⟩ := h
    subst hl
    exact hinv

/-- Claim C1 (counterexample): the spec's claimed order has Trace strictly below
Info, but the rank comparison used by the logger (`level as u8`) gives Info rank
0 and Trace rank 2; concretely, a logger with minimum level Trace rejects an
Info message, which under the claimed order would have to pass. -/
theorem c1_counterexample :
    LogLevel.Info.asU8 < LogLevel.Trace.asU8 ∧
    ¬ LogLevel.Trace.asU8 < LogLevel.Info.asU8 ∧
    Except.map (fun r => r.1)
        ((Logger.new "x" LogLevel.Trace).log "T" LogLevel.Info "m" WriteOutcome.ok) =
      Except.ok false :=
  ⟨by decide, by decide, rfl⟩

/-- Claim C1 (amended): the LogLevel ranks form the total order
Info < Debug < Trace < Warning < Error < Critical (Info lowest, Critical
highest), and the rank comparison used by the logger agrees with this order:
ranks are injective and any two levels are comparable. -/
theorem c1_rank_total_order :
    (LogLevel.Info.asU8 < LogLevel.Debug.asU8 ∧
     LogLevel.Debug.asU8 < LogLevel.Trace.asU8 ∧
     LogLevel.Trace.asU8 < LogLevel.Warning.asU8 ∧
     LogLevel.Warning.asU8 < LogLevel.Error.asU8 ∧
     LogLevel.Error.asU8 < LogLevel.Critical.asU8) ∧
    (∀ a b : LogLevel, a.asU8 = b.asU8 ↔ a = b) ∧
    (∀ a b : LogLevel, a.asU8 < b.asU8 ∨ a = b ∨ b.asU8 < a.asU8) := by
  refine ⟨by decide, fun a b => ?_, fun a b => ?_⟩ <;> cases a <;> cases b <;> decide

/-- Claim C2: for every logger, level and message, `log(level, msg)` returns
true if and only if `rank(level) >= rank(minLevel)`: the returned boolean is
exactly the rank comparison. -/
theorem c2_log_true_iff_rank_ge (l : Logger) (ts : String) (level : LogLevel)
    (message : String) :
    Except.map (fun r => r.1) (l.log ts level message WriteOutcome.ok) =
      Except.ok (decide (l.min_level.asU8 ≤ level.asU8)) := by
  rw [Logger.log_characterization]
  by_cases hgate : l.min_level.asU8 ≤ level.asU8
  · rw [if_pos (show level.asU8 ≥ l.min_level.asU8 from hgate)]
    cases hwf : l.write_to_file <;> cases hlf : l.log_file <;>
      simp [Except.map, decide_eq_true hgate]
  · rw [if_neg (show ¬ level.asU8 ≥ l.min_level.asU8 from hgate)]
    simp [Except.map, decide_eq_false hgate]

/-- Claim C3: a call with `rank(level) < rank(minLevel)` returns false and has
no side effect: no emission to console or file, and the logger state is
unchanged, whatever the write outcome would have been. -/
theorem c3_below_min_no_side_effect (l : Logger) (ts : String) (level : LogLevel)
    (message : String) (o : WriteOutcome) (h : level.asU8 < l.min_level.asU8) :
    l.log ts level message o = .ok (false, l, []) := by
  rw [Logger.log_characterization, if_neg (by omega)]

/-- Witness for C3 at a concrete sub-threshold call. -/
theorem c3_witness :
    LogLevel.Info.asU8 < (Logger.new "n" LogLevel.Error).min_level.asU8 ∧
    (Logger.new "n" LogLevel.Error).log "T" LogLevel.Info "m" WriteOutcome.ok =
      .ok (false, Logger.new "n" LogLevel.Error, []) :=
  ⟨by decide,
    c3_below_min_no_side_effect (Logger.new "n" LogLevel.Error) "T" LogLevel.Info "m"
      WriteOutcome.ok (by decide)⟩

/-- Claim C4: each per-level shortcut equals `log` at the corresponding fixed
level: same boolean, same resulting state, same emissions, for every logger
state, timestamp, message and write outcome. -/
theorem c4_shortcuts_forward_to_log (l : Logger) (ts message : String)
    (o : WriteOutcome) :
    l.trace ts message o = l.log ts LogLevel.Trace message o ∧
    l.debug ts message o = l.log ts LogLevel.Debug message o ∧
    l.info ts message o = l.log ts LogLevel.Info message o ∧
    l.warning ts message o = l.log ts LogLevel.Warning message o ∧
    l.error ts message o = l.log ts LogLevel.Error message o ∧
    l.critical ts message o = l.log ts LogLevel.Critical message o :=
  ⟨rfl, rfl, rfl, rfl, rfl, rfl⟩

/-- Claim C5: `new_default(name)` equals `new(name, Info)`: minimum level Info,
console enabled, file output disabled with no sink. -/
theorem c5_new_default (name : String) :
    Logger.new_default name = Logger.new name LogLevel.Info ∧
    (Logger.new_default name).min_level = LogLevel.Info ∧
    (Logger.new_default name).write_to_console = true ∧
    (Logger.new_default name).write_to_file = false ∧
    (Logger.new_default name).log_file = none :=
  ⟨rfl, rfl, rfl, rfl, rfl⟩

/-- Claim C6: every line emitted to the file sink by a passing `log` call is
exactly `[<timestamp>] [<logger-name>] [<level>] <message>` followed by a
single newline, with the level name lowercase among
trace|debug|info|warning|error|critical, and the timestamp of the form
`YYYY-MM-DD HH:MM:SS.mmm`. -/
theorem c6_file_line_format (l : Logger) (t : DateTime) (level : LogLevel)
    (message : String) (o : WriteOutcome) (b : Bool) (l' : Logger)
    (es : List Emission)
    (hlog : l.log (Logger.get_date_time t) level message o = .ok (b, l', es))
    (line : String) (hmem : Emission.file line ∈ es) :
    line = "[" ++ Logger.get_date_time t ++ "] [" ++ l.name ++ "] ["
        ++ level.to_string ++ "] " ++ message ++ "\n" ∧
    level.to_string ∈ ["trace", "debug", "info", "warning", "error", "critical"] ∧
    timestampShape (Logger.get_date_time t) := by
  refine ⟨?_, ?_, get_date_time_shape t⟩
  · exact Logger.log_file_emission_eq l (Logger.get_date_time t) level message o b l' es
      hlog line hmem
  · cases level <;> simp [LogLevel.to_string]

/-- Witness for C6: a concrete passing call to a file-only logger. -/
theorem c6_witness :
    ((⟨"svc", LogLevel.Warning, some ⟨"log.txt", ""⟩, false, true⟩ : Logger).log
        (Logger.get_date_time ⟨2023, 7, 4, 12, 30, 59, 7⟩) LogLevel.Warning "disk full"
        WriteOutcome.ok =
      .ok (true,
        (⟨"svc", LogLevel.Warning,
          some ⟨"log.txt", "" ++ Logger.file_line
            (Logger.get_date_time ⟨2023, 7, 4, 12, 30, 59, 7⟩) "svc" LogLevel.Warning
            "disk full"⟩, false, true⟩ : Logger),
        [Emission.file (Logger.file_line (Logger.get_date_time ⟨2023, 7, 4, 12, 30, 59, 7⟩)
          "svc" LogLevel.Warning "disk full")])) ∧
    (Logger.file_line (Logger.get_date_time ⟨2023, 7, 4, 12, 30, 59, 7⟩) "svc"
        LogLevel.Warning "disk full" =
      "[" ++ Logger.get_date_time ⟨2023, 7, 4, 12, 30, 59, 7⟩ ++ "] [" ++ "svc" ++ "] ["
        ++ LogLevel.Warning.to_string ++ "] " ++ "disk full" ++ "\n" ∧
      LogLevel.Warning.to_string ∈ ["trace", "debug", "info", "warning", "error", "critical"] ∧
      timestampShape (Logger.get_date_time ⟨2023, 7, 4, 12, 30, 59, 7⟩)) :=
  ⟨rfl,
    c6_file_line_format
      (⟨"svc", LogLevel.Warning, some ⟨"log.txt", ""⟩, false, true⟩ : Logger)
      ⟨2023, 7, 4, 12, 30, 59, 7⟩ LogLevel.Warning "disk full" WriteOutcome.ok true
      (⟨"svc", LogLevel.Warning,
        some ⟨"log.txt", "" ++ Logger.file_line
          (Logger.get_date_time ⟨2023, 7, 4, 12, 30, 59, 7⟩) "svc" LogLevel.Warning
          "disk full"⟩, false, true⟩ : Logger)
      [Emission.file (Logger.file_line (Logger.get_date_time ⟨2023, 7, 4, 12, 30, 59, 7⟩)
        "svc" LogLevel.Warning "disk full")]
      rfl
      (Logger.file_line (Logger.get_date_time ⟨2023, 7, 4, 12, 30, 59, 7⟩) "svc"
        LogLevel.Warning "disk full")
      (List.Mem.head _)⟩

/-- Claim C7: an I/O failure on the file sink, whether on open or on write, is
fatal (the panic, modelled as `Except.error`, carries the error) and is never
swallowed into a success; on success, open yields the sink bound to the path
with its existing content, and write appends exactly the given bytes. -/
theorem c7_sink_fail_fast (path existing e : String) (f : LogFile) (s : String) :
    LogFile.new path (OpenOutcome.opened existing) = .ok ⟨path, existing⟩ ∧
    LogFile.new path (OpenOutcome.ioError e) =
      .error ("Error opening log file: " ++ e ++ "\nPath to log file was: " ++ path) ∧
    f.write s WriteOutcome.ok = .ok ⟨f.path, f.content ++ s⟩ ∧
    f.write s (WriteOutcome.ioError e) =
      .error ("Error writing to log file: " ++ e ++ "\nText to be written was:\n" ++ s) :=
  ⟨rfl, rfl, rfl, rfl⟩

/-- Claim C8: when both destinations are enabled and the call passes the level
gate, the emissions are exactly the file line first and the console line
second, deterministically. -/
theorem c8_both_destinations_file_first (l : Logger) (f : LogFile) (ts : String)
    (level : LogLevel) (message : String)
    (hf : l.write_to_file = true) (hlf : l.log_file = some f)
    (hc : l.write_to_console = true)
    (hgate : l.min_level.asU8 ≤ level.asU8) :
    l.log ts level message WriteOutcome.ok =
      .ok (true,
        { l with log_file := some (⟨f.path,
            f.content ++ Logger.file_line ts l.name level message⟩ : LogFile) },
        [Emission.file (Logger.file_line ts l.name level message),
         Emission.console (Logger.log_to_console ts level message l.name)]) := by
  rw [Logger.log_characterization,
    if_pos (show level.asU8 ≥ l.min_level.asU8 from hgate), hf, hlf]
  simp [hc]

/-- Witness for C8 at a concrete logger with both destinations enabled. -/
theorem c8_witness :
    (⟨"n", LogLevel.Debug, some ⟨"p", "start"⟩, true, true⟩ : Logger).write_to_file = true ∧
    (⟨"n", LogLevel.Debug, some ⟨"p", "start"⟩, true, true⟩ : Logger).log_file =
      some ⟨"p", "start"⟩ ∧
    (⟨"n", LogLevel.Debug, some ⟨"p", "start"⟩, true, true⟩ : Logger).write_to_console = true ∧
    (⟨"n", LogLevel.Debug, some ⟨"p", "start"⟩, true, true⟩ : Logger).min_level.asU8 ≤
      LogLevel.Error.asU8 ∧
    (⟨"n", LogLevel.Debug, some ⟨"p", "start"⟩, true, true⟩ : Logger).log "T"
        LogLevel.Error "msg" WriteOutcome.ok =
      .ok (true,
        (⟨"n", LogLevel.Debug,
          some ⟨"p", "start" ++ Logger.file_line "T" "n" LogLevel.Error "msg"⟩,
          true, true⟩ : Logger),
        [Emission.file (Logger.file_line "T" "n" LogLevel.Error "msg"),
         Emission.console (Logger.log_to_console "T" LogLevel.Error "msg" "n")]) :=
  ⟨rfl, rfl, rfl, by decide,
    c8_both_destinations_file_first
      (⟨"n", LogLevel.Debug, some ⟨"p", "start"⟩, true, true⟩ : Logger)
      ⟨"p", "start"⟩ "T" LogLevel.Error "msg" rfl rfl rfl (by decide)⟩

/-- Claim C9: every logger reachable through the public constructors satisfies,
and every `log` and per-level call preserves, the invariant that file output
enabled implies the sink is present. -/
theorem c9_constructors_and_log_keep_file_invariant :
    (∀ name min_level, (Logger.new name min_level).file_invariant) ∧
    (∀ name, (Logger.new_default name).file_invariant) ∧
    (∀ name min_level filepath w o l,
      Logger.new_to_file name min_level filepath w o = .ok l → l.file_invariant) ∧
    (∀ (l : Logger) (ts : String) (level : LogLevel) (message : String)
        (o : WriteOutcome) (b : Bool) (l' : Logger) (es : List Emission),
      l.file_invariant → l.log ts level message o = .ok (b, l', es) →
        l'.file_invariant) ∧
    (∀ (l : Logger) (ts message : String) (o : WriteOutcome) (b : Bool) (l' : Logger)
        (es : List Emission),
      l.file_invariant → l.trace ts message o = .ok (b, l', es) → l'.file_invariant) ∧
    (∀ (l : Logger) (ts message : String) (o : WriteOutcome) (b : Bool) (l' : Logger)
        (es : List Emission),
      l.file_invariant → l.debug ts message o = .ok (b, l', es) → l'.file_invariant) ∧
    (∀ (l : Logger) (ts message : String) (o : WriteOutcome) (b : Bool) (l' : Logger)
        (es : List Emission),
      l.file_invariant → l.info ts message o = .ok (b, l', es) → l'.file_invariant) ∧
    (∀ (l : Logger) (ts message : String) (o : WriteOutcome) (b : Bool) (l' : Logger)
        (es : List Emission),
      l.file_invariant → l.warning ts message o = .ok (b, l', es) → l'.file_invariant) ∧
    (∀ (l : Logger) (ts message : String) (o : WriteOutcome) (b : Bool) (l' : Logger)
        (es : List Emission),
      l.file_invariant → l.error ts message o = .ok (b, l', es) → l'.file_invariant) ∧
    (∀ (l : Logger) (ts message : String) (o : WriteOutcome) (b : Bool) (l' : Logger)
        (es : List Emission),
      l.file_invariant → l.critical ts message o = .ok (b, l', es) →
        l'.file_invariant) := by
  refine ⟨fun name min_level h => ?_, fun name h => ?_, fun name min_level fp w o l h => ?_,
    fun l ts level message o b l' es hinv h =>
      Logger.log_preserves_file_invariant l ts level message o b l' es hinv h,
    fun l ts message o b l' es hinv h =>
      Logger.log_preserves_file_invariant l ts LogLevel.Trace message o b l' es hinv h,
    fun l ts message o b l' es hinv h =>
      Logger.log_preserves_file_invariant l ts LogLevel.Debug message o b l' es hinv h,
    fun l ts message o b l' es hinv h =>
      Logger.log_preserves_file_invariant l ts LogLevel.Info message o b l' es hinv h,
    fun l ts message o b l' es hinv h =>
      Logger.log_preserves_file_invariant l ts LogLevel.Warning message o b l' es hinv h,
    fun l ts message o b l' es hinv h =>
      Logger.log_preserves_file_invariant l ts LogLevel.Error message o b l' es hinv h,
    fun l ts message o b l' es hinv h =>
      Logger.log_preserves_file_invariant l ts LogLevel.Critical message o b l' es hinv h⟩
  · exact absurd h (by simp [Logger.new])
  · exact absurd h (by simp [Logger.new_default, Logger.new])
  · cases o with
    | opened existing =>
        simp only [Logger.new_to_file, LogFile.new, Except.map, Except.ok.injEq] at h
        subst h
        exact fun _ => rfl
    | ioError e => simp [Logger.new_to_file, LogFile.new, Except.map] at h

/-- Witness for C9: the invariant holds before and after a concrete passing
call on a file-backed logger. -/
theorem c9_witness :
    (⟨"n", LogLevel.Info, some ⟨"p", ""⟩, true, true⟩ : Logger).file_invariant ∧
    (⟨"n", LogLevel.Info, some ⟨"p", ""⟩, true, true⟩ : Logger).log "T" LogLevel.Error "m"
        WriteOutcome.ok =
      .ok (true,
        (⟨"n", LogLevel.Info, some ⟨"p", "" ++ Logger.file_line "T" "n" LogLevel.Error "m"⟩,
          true, true⟩ : Logger),
        [Emission.file (Logger.file_line "T" "n" LogLevel.Error "m"),
         Emission.console (Logger.log_to_console "T" LogLevel.Error "m" "n")]) ∧
    (⟨"n", LogLevel.Info, some ⟨"p", "" ++ Logger.file_line "T" "n" LogLevel.Error "m"⟩,
      true, true⟩ : Logger).file_invariant :=
  ⟨fun _ => rfl, rfl,
    c9_constructors_and_log_keep_file_invariant.2.2.2.1
      (⟨"n", LogLevel.Info, some ⟨"p", ""⟩, true, true⟩ : Logger) "T" LogLevel.Error "m"
      WriteOutcome.ok true
      (⟨"n", LogLevel.Info, some ⟨"p", "" ++ Logger.file_line "T" "n" LogLevel.Error "m"⟩,
        true, true⟩ : Logger)
      [Emission.file (Logger.file_line "T" "n" LogLevel.Error "m"),
       Emission.console (Logger.log_to_console "T" LogLevel.Error "m" "n")]
      (fun _ => rfl) rfl⟩

/-- Claim C10: the boolean returned by `log` depends only on the call's level
and the logger's minimum level: two loggers with the same minimum level return
the same boolean for the same level, whatever their names, messages,
timestamps, destination flags or write outcomes. -/
theorem c10_result_depends_only_on_levels (l₁ l₂ : Logger) (ts₁ ts₂ : String)
    (level : LogLevel) (m₁ m₂ : String) (o₁ o₂ : WriteOutcome) (b₁ b₂ : Bool)
    (l₁' l₂' : Logger) (es₁ es₂ : List Emission)
    (hmin : l₁.min_level = l₂.min_level)
    (h₁ : l₁.log ts₁ level m₁ o₁ = .ok (b₁, l₁', es₁))
    (h₂ : l₂.log ts₂ level m₂ o₂ = .ok (b₂, l₂', es₂)) :
    b₁ = b₂ := by
  rw [Logger.log_ok_fst l₁ ts₁ level m₁ o₁ b₁ l₁' es₁ h₁,
    Logger.log_ok_fst l₂ ts₂ level m₂ o₂ b₂ l₂' es₂ h₂, hmin]

/-- Witness for C10: a console-only logger and a file-only logger with the same
minimum level both return true for a passing level. -/
theorem c10_witness :
    (Logger.new "a" LogLevel.Info).min_level =
      (⟨"b", LogLevel.Info, some ⟨"p", ""⟩, false, true⟩ : Logger).min_level ∧
    (Logger.new "a" LogLevel.Info).log "T1" LogLevel.Error "m1" WriteOutcome.ok =
      .ok (true, Logger.new "a" LogLevel.Info,
        [Emission.console (Logger.log_to_console "T1" LogLevel.Error "m1" "a")]) ∧
    (⟨"b", LogLevel.Info, some ⟨"p", ""⟩, false, true⟩ : Logger).log "T2" LogLevel.Error
        "m2" WriteOutcome.ok =
      .ok (true,
        (⟨"b", LogLevel.Info, some ⟨"p", "" ++ Logger.file_line "T2" "b" LogLevel.Error "m2"⟩,
          false, true⟩ : Logger),
        [Emission.file (Logger.file_line "T2" "b" LogLevel.Error "m2")]) ∧
    (true : Bool) = true :=
  ⟨rfl, rfl, rfl,
    c10_result_depends_only_on_levels (Logger.new "a" LogLevel.Info)
      (⟨"b", LogLevel.Info, some ⟨"p", ""⟩, false, true⟩ : Logger) "T1" "T2"
      LogLevel.Error "m1" "m2" WriteOutcome.ok WriteOutcome.ok true true
      (Logger.new "a" LogLevel.Info)
      (⟨"b", LogLevel.Info, some ⟨"p", "" ++ Logger.file_line "T2" "b" LogLevel.Error "m2"⟩,
        false, true⟩ : Logger)
      [Emission.console (Logger.log_to_console "T1" LogLevel.Error "m1" "a")]
      [Emission.file (Logger.file_line "T2" "b" LogLevel.Error "m2")]
      rfl rfl rfl⟩

end UltimateLogger
